import Mathlib

/-!
Verification of the vote-casting handler of a small polling web application
(`polls/views.py`, function `vote`).  The handler's control flow is embedded
as a pure Lean function over an explicit database and session state; the
persisted entities are modelled from the specification's data model, since
the model definitions themselves are not part of the examined sources.
-/

/-- Modelled from the spec: the Question entity (`polls/models.py` is not
among the examined source files): unique identifier, display text, and a
publication timestamp.  Timestamps are modelled as integers ordered by `≤`. -/
structure Question where
  id : Nat
  questionText : String
  pubDate : Int
deriving DecidableEq, Repr

/-- Modelled from the spec: the Choice entity (`polls/models.py` is not among
the examined source files): unique identifier, display text, reference to the
owning Question, and a non-negative vote counter. -/
structure Choice where
  id : Nat
  choiceText : String
  questionId : Nat
  votes : Nat
deriving DecidableEq, Repr

/-- The persisted store as seen by the handler: the Question rows and the
Choice rows. -/
structure Db where
  questions : List Question
  choices : List Choice
deriving DecidableEq, Repr

/-- The browser session state used by the handler: the value of
`request.session["voted_questions"]` (defaulting to the empty list). -/
structure Session where
  votedQuestions : List Nat
deriving DecidableEq, Repr

/-- The possible responses of the `vote` view, one constructor per `return`
(plus one for a storage failure that escapes the handler). -/
inductive VoteOutcome where
  /-- `HttpResponseNotAllowed(["POST"])` for any non-POST method. -/
  | methodNotAllowed
  /-- `get_object_or_404` raised: question missing or not yet published. -/
  | notFound
  /-- duplicate-vote guard: warning message plus redirect to the results view. -/
  | alreadyVotedRedirect (questionId : Nat) (warning : String)
  /-- validation failure: re-render `polls/detail.html` with an error message. -/
  | renderDetailError (questionId : Nat) (errorMessage : String)
  /-- the transaction around the increments aborted: the exception escapes the
  handler and surfaces as a server error. -/
  | serverError
  /-- success message plus redirect to the results view. -/
  | successRedirect (questionId : Nat) (message : String)
deriving DecidableEq, Repr

/-- Result of one execution of the handler: the response together with the
database and session state after the request. -/
structure VoteResult where
  outcome : VoteOutcome
  db : Db
  session : Session
deriving DecidableEq, Repr

/-- `get_object_or_404(Question.objects.filter(pub_date__lte=timezone.now()), pk=question_id)`:
the published question with the given primary key, if any. -/
def findPublishedQuestion (db : Db) (now : Int) (questionId : Nat) : Option Question :=
  (db.questions.filter (fun q => decide (q.pubDate ≤ now))).find?
    (fun q => q.id == questionId)

/-- `question.choice_set.filter(pk__in=choice_ids)`: the Choice rows owned by
the question whose primary key occurs among the submitted identifiers.  A row
is returned once, however often its key occurs in `choiceIds`. -/
def selectedFor (db : Db) (questionId : Nat) (choiceIds : List Nat) : List Choice :=
  db.choices.filter (fun c => decide (c.questionId = questionId ∧ c.id ∈ choiceIds))

/-- `Choice.objects.filter(pk=pk).update(votes=F("votes") + 1)`: the atomic
storage-level increment of the counter of the row with the given key. -/
def incrementVotes (choices : List Choice) (pk : Nat) : List Choice :=
  choices.map (fun c => if c.id = pk then { c with votes := c.votes + 1 } else c)

/-- The body of the `with transaction.atomic()` block: one atomic increment
per selected choice, in order. -/
def applyVoteIncrements (choices : List Choice) (selected : List Choice) : List Choice :=
  selected.foldl (fun cs ch => incrementVotes cs ch.id) choices

/-- The success message: `"Thanks for voting!"` for a single selection,
otherwise `"Thanks for voting! You selected N choices."`. -/
def voteSuccessMessage (choiceCount : Nat) : String :=
  if choiceCount = 1 then "Thanks for voting!"
  else "Thanks for voting! You selected " ++ toString choiceCount ++ " choices."

/-- The `vote` view of `polls/views.py`, embedded as a pure function.
Inputs: the current time, the database and session state, the request method,
the target question id (URL argument), the submitted choice ids
(`request.POST.getlist("choice")`), and whether the transaction around the
increments commits (`txCompletes = false` models a storage failure, which
rolls every increment back and aborts the handler before the session update). -/
def vote (now : Int) (db : Db) (session : Session) (method : String)
    (questionId : Nat) (choiceIds : List Nat) (txCompletes : Bool) : VoteResult :=
  if method ≠ "POST" then
    { outcome := .methodNotAllowed, db := db, session := session }
  else
    match findPublishedQuestion db now questionId with
    | none => { outcome := .notFound, db := db, session := session }
    | some question =>
      let votedQuestions := session.votedQuestions
      if question.id ∈ votedQuestions then
        { outcome := .alreadyVotedRedirect question.id
            "You have already voted on this question.",
          db := db, session := session }
      else
        let selectedChoices := selectedFor db question.id choiceIds
        if choiceIds = [] ∨ selectedChoices.length ≠ choiceIds.length then
          { outcome := .renderDetailError question.id
              "You didn't select any valid choices.",
            db := db, session := session }
        else if txCompletes then
          { outcome := .successRedirect question.id
              (voteSuccessMessage selectedChoices.length),
            db := { db with choices := applyVoteIncrements db.choices selectedChoices },
            session := { votedQuestions := votedQuestions ++ [question.id] } }
        else
          { outcome := .serverError, db := db, session := session }

/-! ## Basic facts about the handler's building blocks -/

theorem applyVoteIncrements_nil (cs : List Choice) : applyVoteIncrements cs [] = cs := rfl

theorem applyVoteIncrements_cons (cs : List Choice) (ch : Choice) (rest : List Choice) :
    applyVoteIncrements cs (ch :: rest) = applyVoteIncrements (incrementVotes cs ch.id) rest :=
  rfl

theorem incrementVotes_length (cs : List Choice) (pk : Nat) :
    (incrementVotes cs pk).length = cs.length := by
  simp [incrementVotes]

theorem applyVoteIncrements_length (sel cs : List Choice) :
    (applyVoteIncrements cs sel).length = cs.length := by
  induction sel generalizing cs with
  | nil => rfl
  | cons ch rest ih =>
    rw [applyVoteIncrements_cons, ih, incrementVotes_length]

theorem incrementVotes_getElem (cs : List Choice) (pk : Nat) (i : Nat)
    (h : i < cs.length) (h2 : i < (incrementVotes cs pk).length) :
    (incrementVotes cs pk)[i] =
      if cs[i].id = pk then { cs[i] with votes := cs[i].votes + 1 } else cs[i] := by
  simp [incrementVotes]

theorem findPublishedQuestion_some {db : Db} {now : Int} {questionId : Nat} {q : Question}
    (hq : findPublishedQuestion db now questionId = some q) :
    q.id = questionId ∧ q.pubDate ≤ now ∧ q ∈ db.questions := by
  unfold findPublishedQuestion at hq
  have hmem := List.mem_of_find?_eq_some hq
  have hp := List.find?_some hq
  simp only [List.mem_filter, decide_eq_true_eq] at hmem
  simp only [beq_iff_eq] at hp
  exact ⟨hp, hmem.2, hmem.1⟩

theorem findPublishedQuestion_eq_none {db : Db} {now : Int} {questionId : Nat}
    (h : ∀ q ∈ db.questions, q.id = questionId → now < q.pubDate) :
    findPublishedQuestion db now questionId = none := by
  unfold findPublishedQuestion
  apply List.find?_eq_none.mpr
  intro q hqmem
  simp only [List.mem_filter, decide_eq_true_eq] at hqmem
  simp only [beq_iff_eq]
  intro heq
  exact absurd hqmem.2 (not_le.mpr (h q hqmem.1 heq))

/-! ## One lemma per control-flow path of `vote` -/

theorem vote_not_post (now : Int) (db : Db) (session : Session) (method : String)
    (questionId : Nat) (choiceIds : List Nat) (tx : Bool) (hm : method ≠ "POST") :
    vote now db session method questionId choiceIds tx =
      { outcome := .methodNotAllowed, db := db, session := session } := by
  unfold vote
  simp [hm]

theorem vote_not_found (now : Int) (db : Db) (session : Session)
    (questionId : Nat) (choiceIds : List Nat) (tx : Bool)
    (hq : findPublishedQuestion db now questionId = none) :
    vote now db session "POST" questionId choiceIds tx =
      { outcome := .notFound, db := db, session := session } := by
  unfold vote
  rw [if_neg (by simp)]
  rw [hq]

theorem vote_already_voted (now : Int) (db : Db) (session : Session)
    (questionId : Nat) (choiceIds : List Nat) (tx : Bool) (q : Question)
    (hq : findPublishedQuestion db now questionId = some q)
    (hv : q.id ∈ session.votedQuestions) :
    vote now db session "POST" questionId choiceIds tx =
      { outcome := .alreadyVotedRedirect q.id "You have already voted on this question.",
        db := db, session := session } := by
  unfold vote
  rw [if_neg (by simp)]
  rw [hq]
  simp [hv]

theorem vote_invalid_selection (now : Int) (db : Db) (session : Session)
    (questionId : Nat) (choiceIds : List Nat) (tx : Bool) (q : Question)
    (hq : findPublishedQuestion db now questionId = some q)
    (hnv : q.id ∉ session.votedQuestions)
    (hbad : choiceIds = [] ∨ (selectedFor db q.id choiceIds).length ≠ choiceIds.length) :
    vote now db session "POST" questionId choiceIds tx =
      { outcome := .renderDetailError q.id "You didn't select any valid choices.",
        db := db, session := session } := by
  unfold vote
  rw [if_neg (by simp)]
  rw [hq]
  simp only [if_neg hnv]
  rw [if_pos hbad]

theorem vote_tx_abort (now : Int) (db : Db) (session : Session)
    (questionId : Nat) (choiceIds : List Nat) (q : Question)
    (hq : findPublishedQuestion db now questionId = some q)
    (hnv : q.id ∉ session.votedQuestions)
    (hne : choiceIds ≠ [])
    (hlen : (selectedFor db q.id choiceIds).length = choiceIds.length) :
    vote now db session "POST" questionId choiceIds false =
      { outcome := .serverError, db := db, session := session } := by
  unfold vote
  rw [if_neg (by simp)]
  rw [hq]
  simp only [if_neg hnv]
  rw [if_neg (by simp [hne, hlen])]
  rfl

theorem vote_success_eq (now : Int) (db : Db) (session : Session)
    (questionId : Nat) (choiceIds : List Nat) (q : Question)
    (hq : findPublishedQuestion db now questionId = some q)
    (hnv : q.id ∉ session.votedQuestions)
    (hne : choiceIds ≠ [])
    (hlen : (selectedFor db q.id choiceIds).length = choiceIds.length) :
    vote now db session "POST" questionId choiceIds true =
      { outcome := .successRedirect q.id
          (voteSuccessMessage (selectedFor db q.id choiceIds).length),
        db := { db with choices := applyVoteIncrements db.choices (selectedFor db q.id choiceIds) },
        session := { votedQuestions := session.votedQuestions ++ [q.id] } } := by
  unfold vote
  rw [if_neg (by simp)]
  rw [hq]
  simp only [if_neg hnv]
  rw [if_neg (by simp [hne, hlen])]
  rw [if_pos trivial]

theorem applyVoteIncrements_getElem (sel : List Choice) (cs : List Choice)
    (hnd : (sel.map Choice.id).Nodup) :
    ∀ i (h : i < cs.length) (h2 : i < (applyVoteIncrements cs sel).length),
      ((applyVoteIncrements cs sel)[i]).id = cs[i].id ∧
      ((applyVoteIncrements cs sel)[i]).votes =
        cs[i].votes + (if cs[i].id ∈ sel.map Choice.id then 1 else 0) := by
  induction sel generalizing cs with
  | nil =>
    intro i h h2
    simp [applyVoteIncrements_nil]
  | cons ch rest ih =>
    intro i h h2
    rw [List.map_cons, List.nodup_cons] at hnd
    simp only [applyVoteIncrements_cons] at h2 ⊢
    have hlen : i < (incrementVotes cs ch.id).length := by
      rw [incrementVotes_length]; exact h
    obtain ⟨hid, hv⟩ := ih (incrementVotes cs ch.id) hnd.2 i hlen h2
    rw [incrementVotes_getElem cs ch.id i h hlen] at hid hv
    by_cases hc : cs[i].id = ch.id
    · rw [if_pos hc] at hid hv
      dsimp only at hid hv
      have hnotin : ch.id ∉ rest.map Choice.id := hnd.1
      refine ⟨hid, ?_⟩
      rw [hv, hc]
      simp [hnotin]
    · rw [if_neg hc] at hid hv
      refine ⟨hid, ?_⟩
      rw [hv]
      simp [List.map_cons, List.mem_cons, hc]

theorem applyVoteIncrements_votes_le (sel cs : List Choice) :
    ∀ i (h : i < cs.length) (h2 : i < (applyVoteIncrements cs sel).length),
      cs[i].votes ≤ ((applyVoteIncrements cs sel)[i]).votes := by
  induction sel generalizing cs with
  | nil =>
    intro i h h2
    simp [applyVoteIncrements_nil]
  | cons ch rest ih =>
    intro i h h2
    simp only [applyVoteIncrements_cons] at h2 ⊢
    have hlen : i < (incrementVotes cs ch.id).length := by
      rw [incrementVotes_length]; exact h
    have hle := ih (incrementVotes cs ch.id) i hlen h2
    rw [incrementVotes_getElem cs ch.id i h hlen] at hle
    by_cases hc : cs[i].id = ch.id
    · rw [if_pos hc] at hle
      dsimp only at hle
      omega
    · rw [if_neg hc] at hle
      exact hle

theorem selectedFor_map_id_nodup (db : Db) (questionId : Nat) (choiceIds : List Nat)
    (hnd : (db.choices.map Choice.id).Nodup) :
    ((selectedFor db questionId choiceIds).map Choice.id).Nodup :=
  ((List.filter_sublist db.choices).map Choice.id).nodup hnd

theorem selectedFor_mem (db : Db) (questionId : Nat) (choiceIds : List Nat) (c : Choice)
    (hc : c ∈ selectedFor db questionId choiceIds) :
    c ∈ db.choices ∧ c.questionId = questionId ∧ c.id ∈ choiceIds := by
  unfold selectedFor at hc
  simp only [List.mem_filter, decide_eq_true_eq] at hc
  exact ⟨hc.1, hc.2.1, hc.2.2⟩

theorem findPublishedQuestion_congr (db db' : Db) (now : Int) (questionId : Nat)
    (h : db.questions = db'.questions) :
    findPublishedQuestion db now questionId = findPublishedQuestion db' now questionId := by
  unfold findPublishedQuestion
  rw [h]

theorem selectedFor_length_lt_of_dup (db : Db) (questionId : Nat) (choiceIds : List Nat)
    (hnd : (db.choices.map Choice.id).Nodup) (hdup : ¬ choiceIds.Nodup) :
    (selectedFor db questionId choiceIds).length < choiceIds.length := by
  have h1 : ((selectedFor db questionId choiceIds).map Choice.id).Nodup :=
    selectedFor_map_id_nodup db questionId choiceIds hnd
  have h2 : ∀ x ∈ (selectedFor db questionId choiceIds).map Choice.id, x ∈ choiceIds := by
    intro x hx
    obtain ⟨c, hc, rfl⟩ := List.mem_map.mp hx
    exact (selectedFor_mem db questionId choiceIds c hc).2.2
  have hcardle : ((selectedFor db questionId choiceIds).map Choice.id).toFinset.card ≤
      choiceIds.toFinset.card := by
    apply Finset.card_le_card
    intro x hx
    rw [List.mem_toFinset] at hx ⊢
    exact h2 x hx
  have hlt : choiceIds.toFinset.card < choiceIds.length := by
    refine lt_of_le_of_ne (List.toFinset_card_le choiceIds) (fun hEq => hdup ?_)
    rw [← List.toFinset_coe, ← Multiset.coe_card] at hEq
    exact Multiset.coe_nodup.mp (Multiset.toFinset_card_eq_card_iff_nodup.mp hEq)
  calc (selectedFor db questionId choiceIds).length
      = ((selectedFor db questionId choiceIds).map Choice.id).length := by simp
    _ = ((selectedFor db questionId choiceIds).map Choice.id).toFinset.card :=
        (List.toFinset_card_of_nodup h1).symm
    _ ≤ choiceIds.toFinset.card := hcardle
    _ < choiceIds.length := hlt

theorem vote_result_characterization (now : Int) (db : Db) (session : Session)
    (method : String) (questionId : Nat) (choiceIds : List Nat) (tx : Bool) :
    ((vote now db session method questionId choiceIds tx).db = db ∧
     (vote now db session method questionId choiceIds tx).session = session) ∨
    (∃ q, findPublishedQuestion db now questionId = some q ∧
      q.id ∉ session.votedQuestions ∧
      vote now db session method questionId choiceIds tx =
        { outcome := .successRedirect q.id
            (voteSuccessMessage (selectedFor db q.id choiceIds).length),
          db := { db with
            choices := applyVoteIncrements db.choices (selectedFor db q.id choiceIds) },
          session := { votedQuestions := session.votedQuestions ++ [q.id] } }) := by
  by_cases hm : method = "POST"
  · subst hm
    cases hfq : findPublishedQuestion db now questionId with
    | none =>
      left
      rw [vote_not_found now db session questionId choiceIds tx hfq]
      exact ⟨rfl, rfl⟩
    | some q =>
      by_cases hv : q.id ∈ session.votedQuestions
      · left
        rw [vote_already_voted now db session questionId choiceIds tx q hfq hv]
        exact ⟨rfl, rfl⟩
      · by_cases hbad : choiceIds = [] ∨
            (selectedFor db q.id choiceIds).length ≠ choiceIds.length
        · left
          rw [vote_invalid_selection now db session questionId choiceIds tx q hfq hv hbad]
          exact ⟨rfl, rfl⟩
        · push_neg at hbad
          cases tx with
          | false =>
            left
            rw [vote_tx_abort now db session questionId choiceIds q hfq hv hbad.1 hbad.2]
            exact ⟨rfl, rfl⟩
          | true =>
            right
            exact ⟨q, rfl, hv, vote_success_eq now db session questionId choiceIds q hfq hv
              hbad.1 hbad.2⟩
  · left
    rw [vote_not_post now db session method questionId choiceIds tx hm]
    exact ⟨rfl, rfl⟩

/-! ## Concrete fixture used to instantiate the theorems on explicit inputs -/

/-- a published question (publication timestamp 0). -/
def wQ : Question := ⟨1, "What is your favourite colour?", 0⟩

/-- a question whose publication timestamp lies in the future of time 5. -/
def wFuture : Question := ⟨2, "Posted from the future", 10⟩

/-- first choice of the published question. -/
def wRed : Choice := ⟨10, "Red", 1, 0⟩

/-- second choice of the published question. -/
def wBlue : Choice := ⟨11, "Blue", 1, 0⟩

/-- a choice belonging to the future question. -/
def wOther : Choice := ⟨12, "Other", 2, 5⟩

/-- the fixture database. -/
def wDb : Db := ⟨[wQ, wFuture], [wRed, wBlue, wOther]⟩

/-! ## The claims -/

/-- C3: for every request whose method is not POST, the vote handler returns a
method-not-allowed response and performs no side effects: the database and the
session are returned unchanged. -/
theorem vote_non_post_rejected_without_side_effects
    (now : Int) (db : Db) (session : Session) (method : String)
    (questionId : Nat) (choiceIds : List Nat) (tx : Bool)
    (hm : method ≠ "POST") :
    vote now db session method questionId choiceIds tx =
      { outcome := .methodNotAllowed, db := db, session := session } :=
  vote_not_post now db session method questionId choiceIds tx hm

theorem vote_non_post_rejected_without_side_effects_witness :
    ("GET" : String) ≠ "POST" ∧
    vote 5 wDb ⟨[]⟩ "GET" 1 [10] true =
      { outcome := .methodNotAllowed, db := wDb, session := ⟨[]⟩ } :=
  ⟨by decide,
   vote_non_post_rejected_without_side_effects 5 wDb ⟨[]⟩ "GET" 1 [10] true (by decide)⟩

/-- C4: a POST submission targeting a question that does not exist, or whose
publication timestamp is in the future of the current time, yields a not-found
outcome regardless of the submitted choice ids and of the transaction fate,
with no database and no session change. -/
theorem vote_unpublished_or_missing_not_found
    (now : Int) (db : Db) (session : Session) (questionId : Nat)
    (choiceIds : List Nat) (tx : Bool)
    (h : ∀ q ∈ db.questions, q.id = questionId → now < q.pubDate) :
    vote now db session "POST" questionId choiceIds tx =
      { outcome := .notFound, db := db, session := session } :=
  vote_not_found now db session questionId choiceIds tx (findPublishedQuestion_eq_none h)

theorem vote_unpublished_or_missing_not_found_witness :
    (∀ q ∈ wDb.questions, q.id = 2 → (5 : Int) < q.pubDate) ∧
    vote 5 wDb ⟨[]⟩ "POST" 2 [12] true =
      { outcome := .notFound, db := wDb, session := ⟨[]⟩ } :=
  ⟨by decide,
   vote_unpublished_or_missing_not_found 5 wDb ⟨[]⟩ 2 [12] true (by decide)⟩

/-- C6: a POST submission whose selected choice-identifier list is empty, or
for which the count of matching choices of the target question differs from
the count of submitted identifiers, re-renders the voting form with an error
message and performs no counter update and no session update. -/
theorem vote_invalid_selection_rerenders_without_side_effects
    (now : Int) (db : Db) (session : Session) (questionId : Nat)
    (choiceIds : List Nat) (tx : Bool) (q : Question)
    (hq : findPublishedQuestion db now questionId = some q)
    (hnv : q.id ∉ session.votedQuestions)
    (hbad : choiceIds = [] ∨ (selectedFor db q.id choiceIds).length ≠ choiceIds.length) :
    vote now db session "POST" questionId choiceIds tx =
      { outcome := .renderDetailError q.id "You didn't select any valid choices.",
        db := db, session := session } :=
  vote_invalid_selection now db session questionId choiceIds tx q hq hnv hbad

theorem vote_invalid_selection_rerenders_without_side_effects_witness :
    vote 5 wDb ⟨[]⟩ "POST" 1 [] true =
      { outcome := .renderDetailError wQ.id "You didn't select any valid choices.",
        db := wDb, session := ⟨[]⟩ } :=
  vote_invalid_selection_rerenders_without_side_effects 5 wDb ⟨[]⟩ 1 [] true wQ
    (by decide) (by decide) (Or.inl rfl)

/-- C9: a submission whose choice-identifier list contains some identifier
more than once is a validation failure: with duplicate-free database keys the
count of matched choices is strictly smaller than the count of submitted
identifiers, so the handler re-renders the form and changes no counter and no
session state. -/
theorem vote_duplicate_choice_ids_rejected
    (now : Int) (db : Db) (session : Session) (questionId : Nat)
    (choiceIds : List Nat) (tx : Bool) (q : Question)
    (hq : findPublishedQuestion db now questionId = some q)
    (hnv : q.id ∉ session.votedQuestions)
    (hnd : (db.choices.map Choice.id).Nodup)
    (hdup : ¬ choiceIds.Nodup) :
    (selectedFor db q.id choiceIds).length < choiceIds.length ∧
    vote now db session "POST" questionId choiceIds tx =
      { outcome := .renderDetailError q.id "You didn't select any valid choices.",
        db := db, session := session } := by
  have hlt := selectedFor_length_lt_of_dup db q.id choiceIds hnd hdup
  exact ⟨hlt, vote_invalid_selection now db session questionId choiceIds tx q hq hnv
    (Or.inr (Nat.ne_of_lt hlt))⟩

theorem vote_duplicate_choice_ids_rejected_witness :
    (selectedFor wDb wQ.id [10, 10]).length < ([10, 10] : List Nat).length ∧
    vote 5 wDb ⟨[]⟩ "POST" 1 [10, 10] true =
      { outcome := .renderDetailError wQ.id "You didn't select any valid choices.",
        db := wDb, session := ⟨[]⟩ } :=
  vote_duplicate_choice_ids_rejected 5 wDb ⟨[]⟩ 1 [10, 10] true wQ
    (by decide) (by decide) (by decide) (by decide)

/-- C1: for a published question and a single valid choice of it, a POST
submission from a session that has not voted on the question yet increments
exactly that choice's counter by 1, leaves every other counter unchanged,
succeeds with a redirect, and records the question in the session. -/
theorem vote_single_valid_choice_increments_target_only
    (now : Int) (db : Db) (session : Session) (questionId cid : Nat)
    (q : Question) (c : Choice)
    (hq : findPublishedQuestion db now questionId = some q)
    (hnv : q.id ∉ session.votedQuestions)
    (hsel : selectedFor db q.id [cid] = [c]) :
    (vote now db session "POST" questionId [cid] true).outcome =
      .successRedirect q.id (voteSuccessMessage 1) ∧
    (vote now db session "POST" questionId [cid] true).session.votedQuestions =
      session.votedQuestions ++ [q.id] ∧
    (vote now db session "POST" questionId [cid] true).db.choices.length =
      db.choices.length ∧
    ∀ i (h : i < db.choices.length)
        (h2 : i < (vote now db session "POST" questionId [cid] true).db.choices.length),
      ((vote now db session "POST" questionId [cid] true).db.choices[i]).votes =
        (if db.choices[i].id = c.id then db.choices[i].votes + 1
         else db.choices[i].votes) := by
  have hlen : (selectedFor db q.id [cid]).length = ([cid] : List Nat).length := by
    rw [hsel]; rfl
  have hv := vote_success_eq now db session questionId [cid] q hq hnv (by simp) hlen
  simp only [hv]
  dsimp only
  refine ⟨by rw [hsel]; rfl, trivial, applyVoteIncrements_length _ _, ?_⟩
  simp only [hsel, applyVoteIncrements_cons, applyVoteIncrements_nil]
  intro i h h2
  rw [incrementVotes_getElem db.choices c.id i h h2]
  by_cases hcid : db.choices[i].id = c.id
  · simp [hcid]
  · simp [hcid]

theorem vote_single_valid_choice_increments_target_only_witness :
    (vote 5 wDb ⟨[]⟩ "POST" 1 [10] true).outcome =
      .successRedirect wQ.id (voteSuccessMessage 1) ∧
    (vote 5 wDb ⟨[]⟩ "POST" 1 [10] true).session.votedQuestions =
      (Session.mk []).votedQuestions ++ [wQ.id] :=
  ⟨(vote_single_valid_choice_increments_target_only 5 wDb ⟨[]⟩ 1 10 wQ wRed
      (by decide) (by decide) (by decide)).1,
   (vote_single_valid_choice_increments_target_only 5 wDb ⟨[]⟩ 1 10 wQ wRed
      (by decide) (by decide) (by decide)).2.1⟩

/-- C2: all increments of one valid multi-choice submission happen inside one
transaction: if it commits, every selected choice's counter increases by
exactly 1 and every other counter is unchanged, and the question is recorded
in the session; if it aborts, no counter changes and no session update occurs. -/
theorem vote_transaction_all_or_nothing
    (now : Int) (db : Db) (session : Session) (questionId : Nat)
    (choiceIds : List Nat) (q : Question)
    (hq : findPublishedQuestion db now questionId = some q)
    (hnv : q.id ∉ session.votedQuestions)
    (hne : choiceIds ≠ [])
    (hlen : (selectedFor db q.id choiceIds).length = choiceIds.length)
    (hnd : (db.choices.map Choice.id).Nodup) :
    ((vote now db session "POST" questionId choiceIds true).db.choices.length =
        db.choices.length ∧
      (∀ i (h : i < db.choices.length)
          (h2 : i < (vote now db session "POST" questionId choiceIds true).db.choices.length),
        ((vote now db session "POST" questionId choiceIds true).db.choices[i]).votes =
          db.choices[i].votes +
            (if db.choices[i].id ∈ (selectedFor db q.id choiceIds).map Choice.id
             then 1 else 0)) ∧
      (vote now db session "POST" questionId choiceIds true).session.votedQuestions =
        session.votedQuestions ++ [q.id]) ∧
    vote now db session "POST" questionId choiceIds false =
      { outcome := .serverError, db := db, session := session } := by
  refine ⟨?_, vote_tx_abort now db session questionId choiceIds q hq hnv hne hlen⟩
  have hv := vote_success_eq now db session questionId choiceIds q hq hnv hne hlen
  simp only [hv]
  dsimp only
  refine ⟨applyVoteIncrements_length _ _, ?_, trivial⟩
  intro i h h2
  exact (applyVoteIncrements_getElem (selectedFor db q.id choiceIds) db.choices
    (selectedFor_map_id_nodup db q.id choiceIds hnd) i h h2).2

theorem vote_transaction_all_or_nothing_witness :
    (vote 5 wDb ⟨[]⟩ "POST" 1 [10, 11] true).session.votedQuestions =
      (Session.mk []).votedQuestions ++ [wQ.id] ∧
    vote 5 wDb ⟨[]⟩ "POST" 1 [10, 11] false =
      { outcome := .serverError, db := wDb, session := ⟨[]⟩ } :=
  ⟨(vote_transaction_all_or_nothing 5 wDb ⟨[]⟩ 1 [10, 11] wQ
      (by decide) (by decide) (by decide) (by decide) (by decide)).1.2.2,
   (vote_transaction_all_or_nothing 5 wDb ⟨[]⟩ 1 [10, 11] wQ
      (by decide) (by decide) (by decide) (by decide) (by decide)).2⟩

/-- C5: after a first valid vote on a question succeeds and records the
question's identifier in the session, any further vote on the same question
from the same session produces the warning redirect to the results view, with
no additional counter change and no further session change. -/
theorem vote_second_vote_warns_and_changes_nothing
    (now : Int) (db : Db) (session : Session) (questionId : Nat)
    (choiceIds : List Nat) (q : Question)
    (hq : findPublishedQuestion db now questionId = some q)
    (hnv : q.id ∉ session.votedQuestions)
    (hne : choiceIds ≠ [])
    (hlen : (selectedFor db q.id choiceIds).length = choiceIds.length) :
    (∃ msg, (vote now db session "POST" questionId choiceIds true).outcome =
      .successRedirect q.id msg) ∧
    (vote now db session "POST" questionId choiceIds true).db.choices =
      applyVoteIncrements db.choices (selectedFor db q.id choiceIds) ∧
    q.id ∈ (vote now db session "POST" questionId choiceIds true).session.votedQuestions ∧
    ∀ choiceIds2 tx2,
      vote now (vote now db session "POST" questionId choiceIds true).db
        (vote now db session "POST" questionId choiceIds true).session
        "POST" questionId choiceIds2 tx2 =
        { outcome := .alreadyVotedRedirect q.id "You have already voted on this question.",
          db := (vote now db session "POST" questionId choiceIds true).db,
          session := (vote now db session "POST" questionId choiceIds true).session } := by
  have hv := vote_success_eq now db session questionId choiceIds q hq hnv hne hlen
  simp only [hv]
  refine ⟨⟨_, rfl⟩, trivial, by simp, ?_⟩
  intro choiceIds2 tx2
  have hq2 : findPublishedQuestion
      { questions := db.questions,
        choices := applyVoteIncrements db.choices (selectedFor db q.id choiceIds) }
      now questionId = some q :=
    (findPublishedQuestion_congr _ db now questionId rfl).trans hq
  exact vote_already_voted now _ _ questionId choiceIds2 tx2 q hq2 (by simp)

theorem vote_second_vote_warns_and_changes_nothing_witness :
    vote 5 (vote 5 wDb ⟨[]⟩ "POST" 1 [10] true).db
      (vote 5 wDb ⟨[]⟩ "POST" 1 [10] true).session "POST" 1 [11] true =
      { outcome := .alreadyVotedRedirect wQ.id "You have already voted on this question.",
        db := (vote 5 wDb ⟨[]⟩ "POST" 1 [10] true).db,
        session := (vote 5 wDb ⟨[]⟩ "POST" 1 [10] true).session } :=
  (vote_second_vote_warns_and_changes_nothing 5 wDb ⟨[]⟩ 1 [10] wQ
    (by decide) (by decide) (by decide) (by decide)).2.2.2 [11] true

/-- C7: every valid submission redirects to the results view of the target
question with a success message; the message for a single selected choice is
the plain thank-you phrase, while the message for N ≥ 2 selected choices
names the count N and differs from the single-choice phrase. -/
theorem vote_success_redirects_with_count_message
    (now : Int) (db : Db) (session : Session) (questionId : Nat)
    (choiceIds : List Nat) (q : Question)
    (hq : findPublishedQuestion db now questionId = some q)
    (hnv : q.id ∉ session.votedQuestions)
    (hne : choiceIds ≠ [])
    (hlen : (selectedFor db q.id choiceIds).length = choiceIds.length) :
    (vote now db session "POST" questionId choiceIds true).outcome =
      .successRedirect q.id (voteSuccessMessage choiceIds.length) ∧
    (choiceIds.length = 1 →
      voteSuccessMessage choiceIds.length = "Thanks for voting!") ∧
    (2 ≤ choiceIds.length →
      voteSuccessMessage choiceIds.length =
        "Thanks for voting! You selected " ++ toString choiceIds.length ++ " choices." ∧
      voteSuccessMessage choiceIds.length ≠ "Thanks for voting!") := by
  have hv := vote_success_eq now db session questionId choiceIds q hq hnv hne hlen
  refine ⟨by simp only [hv]; rw [hlen], ?_, ?_⟩
  · intro h1
    unfold voteSuccessMessage
    rw [if_pos h1]
  · intro h2
    have hne1 : choiceIds.length ≠ 1 := by omega
    unfold voteSuccessMessage
    rw [if_neg hne1]
    refine ⟨rfl, fun hEq => ?_⟩
    have hL := congrArg String.length hEq
    rw [String.length_append, String.length_append] at hL
    have hA : ("Thanks for voting! You selected " : String).length = 32 := by decide
    have hB : (" choices." : String).length = 9 := by decide
    have hT : ("Thanks for voting!" : String).length = 18 := by decide
    omega

theorem vote_success_redirects_with_count_message_witness :
    (vote 5 wDb ⟨[]⟩ "POST" 1 [10, 11] true).outcome =
      .successRedirect wQ.id (voteSuccessMessage ([10, 11] : List Nat).length) ∧
    (voteSuccessMessage ([10, 11] : List Nat).length =
        "Thanks for voting! You selected " ++
          toString ([10, 11] : List Nat).length ++ " choices." ∧
      voteSuccessMessage ([10, 11] : List Nat).length ≠ "Thanks for voting!") :=
  ⟨(vote_success_redirects_with_count_message 5 wDb ⟨[]⟩ 1 [10, 11] wQ
      (by decide) (by decide) (by decide) (by decide)).1,
   (vote_success_redirects_with_count_message 5 wDb ⟨[]⟩ 1 [10, 11] wQ
      (by decide) (by decide) (by decide) (by decide)).2.2 (by decide)⟩

/-- C8: no execution of the vote handler ever decreases a vote counter: the
choice list keeps its length and every choice's counter after the request is
at least its counter before the request, whatever the input. -/
theorem vote_counters_monotone
    (now : Int) (db : Db) (session : Session) (method : String)
    (questionId : Nat) (choiceIds : List Nat) (tx : Bool) :
    (vote now db session method questionId choiceIds tx).db.choices.length =
      db.choices.length ∧
    ∀ i (h : i < db.choices.length)
        (h2 : i < (vote now db session method questionId choiceIds tx).db.choices.length),
      db.choices[i].votes ≤
        ((vote now db session method questionId choiceIds tx).db.choices[i]).votes := by
  rcases vote_result_characterization now db session method questionId choiceIds tx with
    ⟨hdb, _⟩ | ⟨q, _, _, heq⟩
  · refine ⟨by simp only [hdb], ?_⟩
    intro i h h2
    simp only [hdb]
    exact Nat.le_refl _
  · simp only [heq]
    dsimp only
    exact ⟨applyVoteIncrements_length _ _,
      fun i h h2 => applyVoteIncrements_votes_le (selectedFor db q.id choiceIds)
        db.choices i h h2⟩

theorem vote_counters_monotone_witness :
    (vote 5 wDb ⟨[]⟩ "POST" 1 [10] true).db.choices.length = wDb.choices.length :=
  (vote_counters_monotone 5 wDb ⟨[]⟩ "POST" 1 [10] true).1

/-- C10: the session's voted-questions list stays duplicate-free across every
execution of the vote handler: if it has no duplicates at entry, it has no
duplicates at exit, because a question already present short-circuits the
handler before the append. -/
theorem vote_session_voted_list_nodup_invariant
    (now : Int) (db : Db) (session : Session) (method : String)
    (questionId : Nat) (choiceIds : List Nat) (tx : Bool)
    (hnd : session.votedQuestions.Nodup) :
    (vote now db session method questionId choiceIds tx).session.votedQuestions.Nodup := by
  rcases vote_result_characterization now db session method questionId choiceIds tx with
    ⟨_, hs⟩ | ⟨q, _, hv, heq⟩
  · rw [hs]
    exact hnd
  · rw [heq]
    dsimp only
    simp [List.nodup_append, hnd, hv]

theorem vote_session_voted_list_nodup_invariant_witness :
    (vote 5 wDb ⟨[]⟩ "POST" 1 [10] true).session.votedQuestions.Nodup :=
  vote_session_voted_list_nodup_invariant 5 wDb ⟨[]⟩ "POST" 1 [10] true (by decide)
